import Mathlib

/-
Verification of the query-builder core (src/src/index.ts): the `Query` node
shape, the `QueryBuilder` fluent assembler, and their stated invariants.
The TypeScript is shallowly embedded: the builder's mutable `currentQuery`
becomes explicit state passing on the `Query` type; enum members carry their
numeric encodings (so the constructor's truthiness test on the operator is
modelled exactly); the exceptional path of `group` is modelled in
`ExceptT ε (StateM Query)`, mirroring the statement order of the source.
-/

namespace QB

/-- Enumeration representing query operators, from `enum Operator` in the
source.  TypeScript assigns the members the numeric values 0, 1, 2. -/
inductive Operator where
  | And
  | Or
  | Xor
deriving DecidableEq, Repr

/-- The numeric encoding TypeScript gives each `Operator` member. -/
def Operator.toNat : Operator → Nat
  | Operator.And => 0
  | Operator.Or => 1
  | Operator.Xor => 2

/-- Enumeration representing query filters, from `enum Filter` in the source. -/
inductive Filter where
  | Equal
  | NotEqual
  | GreaterOrEqual
  | LessOrEqual
  | GreaterThan
  | LessThan
  | StartsWith
  | EndsWith
  | DoesNotStartWith
  | DoesNotEndWith
  | Contains
  | DoesNotContain
  | IsNull
  | NotNull
  | Matches
  | DoesNotMatch
  | In
  | NotIn
  | All
  | Any
deriving DecidableEq, Repr

/-- Payloads for the untyped `Value?: any` field of a query: the claims only
ever compare numbers and strings, but booleans and null are included so the
field stays an open, uninterpreted payload as the source intends. -/
inductive Value where
  | num (n : Int)
  | str (s : String)
  | bool (b : Bool)
  | null
deriving DecidableEq, Repr

/-- The `Query` interface from the source.  TypeScript optional fields
(`Operator?`, `Property?`, `Filter?`, `Value?`, `Queries?`) become `Option`;
`Not` is the one required field. -/
structure Query where
  Operator : Option Operator
  Not : Bool
  Property : Option String
  Filter : Option Filter
  Value : Option Value
  Queries : Option (List Query)

/-- The constructor body `this.currentQuery = { Not: false };
if (condition) { this.currentQuery.Operator = condition; }`.
The `if (condition)` is a JavaScript truthiness test on the enum's numeric
value, so it fails exactly when `condition` encodes to 0 (`Operator.And`). -/
def QueryBuilder.construct (condition : Operator) : Query :=
  let base : Query :=
    { Operator := none, Not := false, Property := none, Filter := none,
      Value := none, Queries := none }
  if condition.toNat ≠ 0 then { base with Operator := some condition } else base

/-- A constructor call with no argument: the default parameter is
`Operator.And`. -/
def QueryBuilder.constructDefault : Query :=
  QueryBuilder.construct Operator.And

/-- The `and()` method: sets `Operator` to `And` on the current node. -/
def QueryBuilder.and (self : Query) : Query :=
  { self with Operator := some Operator.And }

/-- The `or()` method: sets `Operator` to `Or` on the current node. -/
def QueryBuilder.or (self : Query) : Query :=
  { self with Operator := some Operator.Or }

/-- The `xor()` method: sets `Operator` to `Xor` on the current node. -/
def QueryBuilder.xor (self : Query) : Query :=
  { self with Operator := some Operator.Xor }

/-- The `add(property, filter, value?)` method: builds the leaf
`{ Property, Filter, Value, Not: false }`, lazily creates `Queries`
(`if (!this.currentQuery.Queries) this.currentQuery.Queries = []` — an empty
array is truthy in JavaScript, so only an absent field triggers the branch),
then pushes the leaf. -/
def QueryBuilder.add (self : Query) (property : String) (filter : Filter)
    (value : Option Value) : Query :=
  let query : Query :=
    { Operator := none, Not := false, Property := some property,
      Filter := some filter, Value := value, Queries := none }
  let qs : List Query :=
    match self.Queries with
    | none => []
    | some qs => qs
  { self with Queries := some (qs ++ [query]) }

/-- The `build()` method: `return this.currentQuery`. -/
def QueryBuilder.build (self : Query) : Query :=
  self

/-- The `group(groupAction, condition)` method: creates a fresh sub-builder
with `condition`, runs the callback on it, then lazily creates `Queries` and
pushes the sub-builder's `build()` output. -/
def QueryBuilder.group (self : Query) (groupAction : Query → Query)
    (condition : Operator) : Query :=
  let g := groupAction (QueryBuilder.construct condition)
  let qs : List Query :=
    match self.Queries with
    | none => []
    | some qs => qs
  { self with Queries := some (qs ++ [QueryBuilder.build g]) }

/-- The `build()` method as the read it is on the builder's mutable state:
it returns `this.currentQuery` and performs no mutation, i.e. it is `get`. -/
def QueryBuilder.buildM : StateM Query Query :=
  get

/-- The `group` method with an exception-throwing callback, translated
statement by statement into `ExceptT ε (StateM Query)`: first the callback
runs on a fresh sub-builder (touching no outer state); only after it returns
normally is the outer node's `Queries` lazily created and the child pushed. -/
def QueryBuilder.groupE (ε : Type) (groupAction : Query → Except ε Query)
    (condition : Operator) : ExceptT ε (StateM Query) Unit := do
  let g ← (ExceptT.mk (pure (groupAction (QueryBuilder.construct condition))) :
    ExceptT ε (StateM Query) Query)
  modify (fun self =>
    let qs : List Query :=
      match self.Queries with
      | none => []
      | some qs => qs
    { self with Queries := some (qs ++ [QueryBuilder.build g]) })

/-- A client-side call against one builder instance: the five mutating
methods of the fluent interface.  A `group` call carries the list of calls
its callback makes on the sub-builder, so arbitrary nesting is expressible. -/
inductive Op where
  | add (property : String) (filter : Filter) (value : Option Value)
  | group (sub : List Op) (condition : Operator)
  | useAnd
  | useOr
  | useXor

mutual

/-- Run one builder-method call on the current node. -/
def runOp : Query → Op → Query
  | q, Op.add p f v => QueryBuilder.add q p f v
  | q, Op.group sub cond => QueryBuilder.group q (fun g => runOps g sub) cond
  | q, Op.useAnd => QueryBuilder.and q
  | q, Op.useOr => QueryBuilder.or q
  | q, Op.useXor => QueryBuilder.xor q

/-- Run a chain of builder-method calls in order. -/
def runOps : Query → List Op → Query
  | q, [] => q
  | q, o :: os => runOps (runOp q o) os

end

/-- The node's `Queries` sequence, read as a list (empty when absent). -/
def childrenOf (q : Query) : List Query :=
  q.Queries.getD []

/-- The leaf node `add p f v` constructs before pushing it. -/
def mkLeaf (p : String) (f : Filter) (v : Option Value) : Query :=
  { Operator := none, Not := false, Property := some p,
    Filter := some f, Value := v, Queries := none }

mutual

/-- Every node of the tree has `Not = false`. -/
def queryNotFalse : Query → Bool
  | Query.mk _ n _ _ _ qs => !n && optNotFalse qs

/-- `queryNotFalse` lifted to the optional `Queries` field. -/
def optNotFalse : Option (List Query) → Bool
  | none => true
  | some qs => listNotFalse qs

/-- `queryNotFalse` on every element of a list of nodes. -/
def listNotFalse : List Query → Bool
  | [] => true
  | q :: qs => queryNotFalse q && listNotFalse qs

end

theorem construct_Queries (cond : Operator) :
    (QueryBuilder.construct cond).Queries = none := by
  cases cond <;> rfl

theorem construct_Not (cond : Operator) :
    (QueryBuilder.construct cond).Not = false := by
  cases cond <;> rfl

theorem construct_Operator (cond : Operator) :
    (QueryBuilder.construct cond).Operator =
      if cond = Operator.And then none else some cond := by
  cases cond <;> rfl

theorem add_Queries (q : Query) (p : String) (f : Filter) (v : Option Value) :
    (QueryBuilder.add q p f v).Queries = some (childrenOf q ++ [mkLeaf p f v]) := by
  cases q with
  | mk o n pr fi va qs =>
    cases qs <;> rfl

theorem add_preserves_rest (q : Query) (p : String) (f : Filter) (v : Option Value) :
    (QueryBuilder.add q p f v).Operator = q.Operator ∧
    (QueryBuilder.add q p f v).Not = q.Not := by
  constructor <;> rfl

theorem group_eq (q : Query) (cb : Query → Query) (cond : Operator) :
    QueryBuilder.group q cb cond =
      { q with Queries := some (childrenOf q ++ [cb (QueryBuilder.construct cond)]) } := by
  cases q with
  | mk o n pr fi va qs =>
    cases qs <;> rfl

/-- C1 counterexample: passing `Operator.And` explicitly to the constructor
does not put `And` in the built node's `Operator` field — the field is
absent, because `And` encodes to the falsy number 0. -/
theorem c1_and_operator_dropped :
    (QueryBuilder.build (QueryBuilder.construct Operator.And)).Operator ≠
      some Operator.And ∧
    (QueryBuilder.build (QueryBuilder.construct Operator.And)).Operator = none := by
  decide

/-- C1 amended: for an explicitly passed operator `op`, `build()` on the fresh
builder yields `Not = false` and no `Queries`, and the `Operator` field equals
`op` exactly when `op` is not `And`; for `And` (numeric zero, falsy) the field
is absent. -/
theorem c1_fresh_build_shape (op : Operator) :
    (QueryBuilder.build (QueryBuilder.construct op)).Not = false ∧
    (QueryBuilder.build (QueryBuilder.construct op)).Queries = none ∧
    (QueryBuilder.build (QueryBuilder.construct op)).Operator =
      (if op = Operator.And then none else some op) := by
  cases op <;> exact ⟨rfl, rfl, rfl⟩

/-- C2: a builder constructed with no argument (default `Operator.And`) builds
to a root with `Not = false` and no `Operator` field present at all. -/
theorem c2_default_construct_omits_operator :
    QueryBuilder.build QueryBuilder.constructDefault =
      { Operator := none, Not := false, Property := none, Filter := none,
        Value := none, Queries := none } := by
  rfl

/-- The end-to-end scenario of C3: a default-constructed builder, then
`add("age", GreaterThan, 18)`, then `add("country", Equal, "US")`, then
`build()`. -/
def scenarioAgeCountry : Query :=
  QueryBuilder.build
    (QueryBuilder.add
      (QueryBuilder.add QueryBuilder.constructDefault
        "age" Filter.GreaterThan (some (Value.num 18)))
      "country" Filter.Equal (some (Value.str "US")))

/-- C3 counterexample: the claimed result tree has `operator: AND` at the
root, but the default-constructed builder never sets `Operator` (`And` is the
falsy numeric zero), so the scenario's root has no `Operator` field. -/
theorem c3_root_operator_absent :
    scenarioAgeCountry.Operator ≠ some Operator.And ∧
    scenarioAgeCountry.Operator = none := by
  decide

/-- C3 amended: the scenario yields exactly the claimed two leaves in call
order under a root with `Not = false`, except that the root's `Operator`
field is absent rather than `And`. -/
theorem c3_scenario_tree :
    scenarioAgeCountry =
      { Operator := none, Not := false, Property := none, Filter := none,
        Value := none,
        Queries := some
          [ { Operator := none, Not := false, Property := some "age",
              Filter := some Filter.GreaterThan,
              Value := some (Value.num 18), Queries := none },
            { Operator := none, Not := false, Property := some "country",
              Filter := some Filter.Equal,
              Value := some (Value.str "US"), Queries := none } ] } := by
  rfl

/-- C4: one `add(p, f, v)` call on a fresh builder (any constructor operator)
yields a root whose `Queries` is exactly the one leaf
`{Property: p, Filter: f, Value: v, Not: false}`; the `Queries` sequence did
not exist before that call (it is created lazily by it). -/
theorem c4_single_add (cond : Operator) (p : String) (f : Filter)
    (v : Option Value) :
    (QueryBuilder.construct cond).Queries = none ∧
    (QueryBuilder.build
        (QueryBuilder.add (QueryBuilder.construct cond) p f v)).Queries =
      some [mkLeaf p f v] := by
  refine ⟨construct_Queries cond, ?_⟩
  show (QueryBuilder.add (QueryBuilder.construct cond) p f v).Queries =
    some [mkLeaf p f v]
  rw [add_Queries]
  simp [childrenOf, construct_Queries]

theorem childrenOf_add (q : Query) (p : String) (f : Filter)
    (v : Option Value) :
    childrenOf (QueryBuilder.add q p f v) = childrenOf q ++ [mkLeaf p f v] := by
  simp [childrenOf, add_Queries]

/-- C5: running any chain of `add` calls appends exactly their leaves to the
`Queries` sequence in call order (so after N calls from any starting state the
new suffix has length N and its i-th element is the i-th call's leaf), and a
`group` call likewise appends exactly one child at the end, leaving all
earlier children in place. -/
theorem c5_children_append_only :
    (∀ (q : Query) (adds : List (String × Filter × Option Value)),
      childrenOf (runOps q (adds.map (fun t => Op.add t.1 t.2.1 t.2.2))) =
        childrenOf q ++ adds.map (fun t => mkLeaf t.1 t.2.1 t.2.2)) ∧
    (∀ (q : Query) (sub : List Op) (cond : Operator),
      childrenOf (runOp q (Op.group sub cond)) =
        childrenOf q ++ [runOps (QueryBuilder.construct cond) sub]) := by
  constructor
  · intro q adds
    induction adds generalizing q with
    | nil => simp [runOps]
    | cons t ts ih =>
      simp [runOps, runOp, childrenOf_add, ih]
  · intro q sub cond
    simp [runOp, group_eq, childrenOf, QueryBuilder.build]

/-- C6: `group(cb, OR)` where `cb` makes exactly two `add` calls appends
exactly one child to the outer `Queries`: a node with `Operator = Or`,
`Not = false`, whose own `Queries` holds the two leaves in call order. -/
theorem c6_group_or_two_conditions (q : Query) (p1 : String) (f1 : Filter)
    (v1 : Option Value) (p2 : String) (f2 : Filter) (v2 : Option Value) :
    QueryBuilder.group q
        (fun g => QueryBuilder.add (QueryBuilder.add g p1 f1 v1) p2 f2 v2)
        Operator.Or =
      { q with Queries := some (childrenOf q ++
          [ { Operator := some Operator.Or, Not := false, Property := none,
              Filter := none, Value := none,
              Queries := some [mkLeaf p1 f1 v1, mkLeaf p2 f2 v2] } ]) } := by
  cases q with
  | mk o n pr fi va qs =>
    cases qs <;> rfl

/-- C7: `build()` is a pure snapshot read: it returns the current node as-is
(no validation, no failure), leaves the builder state unchanged, and a second
`build()` with no intervening mutation returns a structurally identical
result. -/
theorem c7_build_snapshot (s : Query) :
    (QueryBuilder.buildM.run s).1 = s ∧
    (QueryBuilder.buildM.run s).2 = s ∧
    (QueryBuilder.buildM.run ((QueryBuilder.buildM.run s).2)).1 =
      (QueryBuilder.buildM.run s).1 := by
  exact ⟨rfl, rfl, rfl⟩

/-- C8: when the caller-supplied callback throws, the error escapes `group`
unmodified (not wrapped), and the outer builder's state is exactly what it
was when the throw happened — no rollback is performed (and none is needed:
`group` had made no outer mutation yet). -/
theorem c8_group_error_propagates (ε : Type) (cb : Query → Except ε Query)
    (cond : Operator) (s : Query) (e : ε)
    (h : cb (QueryBuilder.construct cond) = Except.error e) :
    (QueryBuilder.groupE ε cb cond).run.run s = (Except.error e, s) := by
  unfold QueryBuilder.groupE
  rw [h]
  rfl

/-- C8 witness: a callback that throws `7` on an `Or` group of a
default-constructed builder. -/
theorem c8_group_error_propagates_witness :
    (QueryBuilder.groupE Nat (fun _ => Except.error 7) Operator.Or).run.run
        QueryBuilder.constructDefault =
      (Except.error 7, QueryBuilder.constructDefault) :=
  c8_group_error_propagates Nat (fun _ => Except.error 7) Operator.Or
    QueryBuilder.constructDefault 7 rfl

/-- C10: `group` is atomic with respect to the outer builder: the child is
pushed only after the callback returns normally, so a throwing callback
leaves the outer current node exactly unchanged. -/
theorem c10_group_atomic_on_throw (ε : Type) (cb : Query → Except ε Query)
    (cond : Operator) (s : Query) (e : ε)
    (h : cb (QueryBuilder.construct cond) = Except.error e) :
    ((QueryBuilder.groupE ε cb cond).run.run s).2 = s := by
  unfold QueryBuilder.groupE
  rw [h]
  rfl

/-- C10 witness: a callback that throws the string message on an `Xor` group
of a builder already holding one leaf. -/
theorem c10_group_atomic_on_throw_witness :
    ((QueryBuilder.groupE String (fun _ => Except.error "boom")
          Operator.Xor).run.run
        (QueryBuilder.add (QueryBuilder.construct Operator.Or)
          "age" Filter.LessThan (some (Value.num 3)))).2 =
      QueryBuilder.add (QueryBuilder.construct Operator.Or)
        "age" Filter.LessThan (some (Value.num 3)) :=
  c10_group_atomic_on_throw String (fun _ => Except.error "boom") Operator.Xor
    (QueryBuilder.add (QueryBuilder.construct Operator.Or)
      "age" Filter.LessThan (some (Value.num 3))) "boom" rfl

theorem optNotFalse_getD (qs : Option (List Query)) :
    listNotFalse (qs.getD []) = optNotFalse qs := by
  cases qs <;> rfl

theorem listNotFalse_append (xs ys : List Query) :
    listNotFalse (xs ++ ys) = (listNotFalse xs && listNotFalse ys) := by
  induction xs with
  | nil => simp [listNotFalse]
  | cons x xs ih => simp [listNotFalse, ih, Bool.and_assoc]

theorem construct_notFalse (cond : Operator) :
    queryNotFalse (QueryBuilder.construct cond) = true := by
  cases cond <;> rfl

theorem mkLeaf_notFalse (p : String) (f : Filter) (v : Option Value) :
    queryNotFalse (mkLeaf p f v) = true := by
  rfl

theorem pushChild_notFalse (q c : Query) (hq : queryNotFalse q = true)
    (hc : queryNotFalse c = true) :
    queryNotFalse { q with Queries := some (childrenOf q ++ [c]) } = true := by
  cases q with
  | mk o n p f v qs =>
    have h1 : (!n) = true ∧ optNotFalse qs = true := by
      simpa [queryNotFalse, Bool.and_eq_true] using hq
    simp [queryNotFalse, optNotFalse, childrenOf, listNotFalse_append,
      listNotFalse, optNotFalse_getD, h1.1, h1.2, hc]

theorem setOperator_notFalse (q : Query) (op : Operator)
    (hq : queryNotFalse q = true) :
    queryNotFalse { q with Operator := some op } = true := by
  cases q with
  | mk o n p f v qs => simpa [queryNotFalse] using hq

theorem add_notFalse (q : Query) (p : String) (f : Filter) (v : Option Value)
    (hq : queryNotFalse q = true) :
    queryNotFalse (QueryBuilder.add q p f v) = true := by
  have h : QueryBuilder.add q p f v =
      { q with Queries := some (childrenOf q ++ [mkLeaf p f v]) } := by
    cases q with
    | mk o n pr fi va qs => cases qs <;> rfl
  rw [h]
  exact pushChild_notFalse q (mkLeaf p f v) hq (mkLeaf_notFalse p f v)

mutual

theorem runOp_notFalse : ∀ (op : Op) (q : Query),
    queryNotFalse q = true → queryNotFalse (runOp q op) = true
  | Op.add p f v, q, h => by
    have hr : runOp q (Op.add p f v) = QueryBuilder.add q p f v := by
      simp [runOp]
    rw [hr]
    exact add_notFalse q p f v h
  | Op.group sub cond, q, h => by
    have hr : runOp q (Op.group sub cond) =
        QueryBuilder.group q (fun g => runOps g sub) cond := by
      simp [runOp]
    rw [hr, group_eq]
    exact pushChild_notFalse q (runOps (QueryBuilder.construct cond) sub) h
      (runOps_notFalse sub (QueryBuilder.construct cond)
        (construct_notFalse cond))
  | Op.useAnd, q, h => by
    have hr : runOp q Op.useAnd = QueryBuilder.and q := by
      simp [runOp]
    rw [hr]
    exact setOperator_notFalse q Operator.And h
  | Op.useOr, q, h => by
    have hr : runOp q Op.useOr = QueryBuilder.or q := by
      simp [runOp]
    rw [hr]
    exact setOperator_notFalse q Operator.Or h
  | Op.useXor, q, h => by
    have hr : runOp q Op.useXor = QueryBuilder.xor q := by
      simp [runOp]
    rw [hr]
    exact setOperator_notFalse q Operator.Xor h

theorem runOps_notFalse : ∀ (ops : List Op) (q : Query),
    queryNotFalse q = true → queryNotFalse (runOps q ops) = true
  | [], q, h => by
    have hr : runOps q [] = q := by
      simp [runOps]
    rw [hr]
    exact h
  | o :: os, q, h => by
    have hr : runOps q (o :: os) = runOps (runOp q o) os := by
      simp [runOps]
    rw [hr]
    exact runOps_notFalse os (runOp q o) (runOp_notFalse o q h)

end

/-- C9: every node of every tree the builder produces — the root for any
constructor operator, every leaf appended by `add`, and every group sub-root
at any nesting depth, across any chain of builder calls — carries
`Not = false`: it is set to false at construction and no operation ever
changes it. -/
theorem c9_negate_false_everywhere (cond : Operator) (ops : List Op) :
    queryNotFalse (runOps (QueryBuilder.construct cond) ops) = true :=
  runOps_notFalse ops (QueryBuilder.construct cond) (construct_notFalse cond)

end QB
